import Mathlib

/-!
Shallow embedding of `recaptcha.go` (package recaptcha): the verification
engine configuration, the request/response/option/error records, and the
`confirm` routine that runs the transport phase and the policy evaluation.

Modelling conventions:
* `float32` fields (`Score`, `Threshold`) are modelled as `Rat`.  The source
  performs no floating-point arithmetic on them, only order comparisons and
  comparison with the literals `0` and `0.5`, which `Rat` reflects exactly.
* `time.Duration` values are modelled as `Int` (nanoseconds, as in Go);
  `time.Time` (`ChallengeTS`) is modelled as an opaque `Int` timestamp, used
  only as the argument of the injected clock.
* The injected collaborators (the `netClient` HTTP client, the `clock`, and
  `json.Unmarshal`) are modelled as explicit parameters: the transport phase
  outcome is a `TransportOutcome`, the clock is a function from timestamps to
  elapsed durations, and the JSON decoder is a function from the raw body to
  `Except String reCHAPTCHAResponse`.
* Go `nil` versus non-`nil` slices (`ErrorCodes`) are modelled with
  `Option (List String)`: `none` is the `nil` slice, `some l` a non-`nil`
  slice (possibly empty).
* `VERSION` is `int8` in Go, an open integer type; it is modelled as `Int`.
-/

namespace Recaptcha

/-- `VERSION` from the source: an open integer type (`int8` in Go), not a
closed enumeration. -/
abbrev VERSION := Int

/-- `V2 VERSION = iota` (= 0). -/
def V2 : VERSION := 0

/-- `V3` (= 1). -/
def V3 : VERSION := 1

/-- `DefaultThreshold float32 = 0.5` (`Rat.divInt 1 2` is the rational 0.5,
written so that it reduces inside the kernel). -/
def DefaultThreshold : Rat := Rat.divInt 1 2

/-- `const reCAPTCHALink`. -/
def reCAPTCHALink : String := "https://www.google.com/recaptcha/api/siteverify"

/-- The single-quote character used by the Sprintf format strings of the
source (written via its code point to keep the message builders readable). -/
def squote : String := (Char.ofNat 39).toString

/-- Wraps a string in single quotes, as the Sprintf patterns of the source do. -/
def quoted (s : String) : String := squote ++ s ++ squote

/-- Left-pads a natural number with zeros to six digits (the fractional part
of a fixed-point six-decimal rendering). -/
def pad6 (n : Nat) : String :=
  let s := toString n
  String.mk (List.replicate (6 - s.length) '0') ++ s

/-- Fixed-point rendering of a rational with six decimals, modelling Go's
`fmt.Sprintf` with the `%f` verb applied to an exactly-represented value
(rounding half up in magnitude). -/
def fmtQ6 (q : Rat) : String :=
  let sign := if q < 0 then "-" else ""
  let n := q.num.natAbs
  let d := q.den
  let m := (n * 1000000 * 2 + d) / (2 * d)
  sign ++ toString (m / 1000000) ++ "." ++ pad6 (m % 1000000)

/-- Models `Duration.Seconds()` followed by `%f` formatting: the duration is
`Int` nanoseconds, rendered as seconds with six decimals. -/
def fmtSeconds (ns : Int) : String := fmtQ6 (Rat.divInt ns 1000000000)

/-- Models `fmt.Sprintf` with the `%v` verb on a `[]string` value:
space-separated elements in square brackets. -/
def goStrListRepr (l : List String) : String :=
  "[" ++ String.intercalate " " l ++ "]"

/-- `reCHAPTCHARequest` from the source (the JSON tags do not matter to the
policy logic; `RemoteIP` empty models the omitted field). -/
structure reCHAPTCHARequest where
  Secret : String := ""
  Response : String := ""
  RemoteIP : String := ""
deriving DecidableEq

/-- `reCHAPTCHAResponse` from the source, the parsed remote result.  Missing
JSON fields take the Go zero values, which are the defaults here. -/
structure reCHAPTCHAResponse where
  Success : Bool := false
  ChallengeTS : Int := 0
  Hostname : String := ""
  ApkPackageName : String := ""
  Action : String := ""
  Score : Rat := 0
  ErrorCodes : Option (List String) := none
deriving DecidableEq

/-- The custom `Error` struct of the source: message, optional remote error
codes (`nil` slice modelled as `none`), the transport-failure flag
`RequestError`, and the raw response body (Go zero value `""` when never
assigned). -/
structure Error where
  msg : String := ""
  ErrorCodes : Option (List String) := none
  RequestError : Bool := false
  ResponseBody : String := ""
deriving DecidableEq

/-- `ReCAPTCHA` holder struct: the engine configuration set by
`NewReCAPTCHA`.  The `client` and `horloge` collaborators are modelled as
explicit parameters of the evaluation functions instead of stored closures. -/
structure ReCAPTCHA where
  Secret : String := ""
  ReCAPTCHALink : String := ""
  Version : VERSION := 0
  Timeout : Int := 0
deriving DecidableEq

/-- `VerifyOption` from the source. -/
structure VerifyOption where
  Threshold : Rat := 0
  Action : String := ""
  Hostname : String := ""
  ApkPackageName : String := ""
  ResponseTime : Int := 0
  RemoteIP : String := ""
deriving DecidableEq

/-- `NewReCAPTCHA`: fails on a blank secret, otherwise stores the secret, the
fixed endpoint link, the version and the timeout. -/
def NewReCAPTCHA (ReCAPTCHASecret : String) (version : VERSION) (timeout : Int) :
    Except String ReCAPTCHA :=
  if ReCAPTCHASecret = "" then
    .error "recaptcha secret cannot be blank"
  else
    .ok { Secret := ReCAPTCHASecret
          ReCAPTCHALink := reCAPTCHALink
          Timeout := timeout
          Version := version }

/-- The action-mismatch rejection built by `confirm` (Sprintf
`invalid response action %s, while expecting %s` with quoted arguments). -/
def actionError (got expected body : String) : Error :=
  { msg := "invalid response action " ++ quoted got ++ ", while expecting " ++ quoted expected
    ResponseBody := body }

/-- The score-below-minimum rejection built by `confirm` (Sprintf
`received score %f, while expecting minimum %f` with quoted arguments). -/
def scoreError (got expected : Rat) (body : String) : Error :=
  { msg := "received score " ++ quoted (fmtQ6 got) ++ ", while expecting minimum " ++
      quoted (fmtQ6 expected)
    ResponseBody := body }

/-- The remote-error-codes rejection built by `confirm`: the message lists the
codes and the `ErrorCodes` field carries them. -/
def errorCodesError (codes : List String) (body : String) : Error :=
  { msg := "remote error codes: " ++ goStrListRepr codes
    ErrorCodes := some codes
    ResponseBody := body }

/-- The failed-solution rejection built by `confirm` when a remote IP was part
of the request. -/
def solutionRemoteIPError (body : String) : Error :=
  { msg := "invalid challenge solution or remote IP", ResponseBody := body }

/-- The failed-solution rejection built by `confirm` when no remote IP was
part of the request. -/
def solutionError (body : String) : Error :=
  { msg := "invalid challenge solution", ResponseBody := body }

/-- The hostname-mismatch rejection built by `confirm`. -/
def hostnameError (got expected body : String) : Error :=
  { msg := "invalid response hostname " ++ quoted got ++ ", while expecting " ++ quoted expected
    ResponseBody := body }

/-- The app-package-mismatch rejection built by `confirm`. -/
def apkError (got expected body : String) : Error :=
  { msg := "invalid response ApkPackageName " ++ quoted got ++ ", while expecting " ++
      quoted expected
    ResponseBody := body }

/-- The response-time rejection built by `confirm`: both durations rendered in
fixed-point seconds (Sprintf
`time spent in resolving challenge %fs, while expecting maximum %fs`). -/
def responseTimeError (elapsed maximum : Int) (body : String) : Error :=
  { msg := "time spent in resolving challenge " ++ quoted (fmtSeconds elapsed ++ "s") ++
      ", while expecting maximum " ++ quoted (fmtSeconds maximum ++ "s")
    ResponseBody := body }

/-- Steps 2-6 of `confirm` (source lines 185-229): remote error codes, success
flag, hostname, app package name, response time.  `horloge` is the injected
clock: `horloge result.ChallengeTS` models `r.horloge.Since(result.ChallengeTS)`. -/
def confirmRest (recaptcha : reCHAPTCHARequest) (options : VerifyOption)
    (horloge : Int → Int) (result : reCHAPTCHAResponse) (resultBody : String) :
    Option Error :=
  if result.ErrorCodes ≠ none then
    -- the guard makes `getD []` the very slice stored in `result.ErrorCodes`
    some (errorCodesError (result.ErrorCodes.getD []) resultBody)
  else if result.Success = false ∧ recaptcha.RemoteIP ≠ "" then
    some (solutionRemoteIPError resultBody)
  else if result.Success = false then
    some (solutionError resultBody)
  else if options.Hostname ≠ "" ∧ options.Hostname ≠ result.Hostname then
    some (hostnameError result.Hostname options.Hostname resultBody)
  else if options.ApkPackageName ≠ "" ∧ options.ApkPackageName ≠ result.ApkPackageName then
    some (apkError result.ApkPackageName options.ApkPackageName resultBody)
  else if options.ResponseTime ≠ 0 ∧ options.ResponseTime < horloge result.ChallengeTS then
    some (responseTimeError (horloge result.ChallengeTS) options.ResponseTime resultBody)
  else
    none

/-- The policy evaluation of `confirm` (source lines 164-229): the V3-gated
action and score checks, then `confirmRest`. -/
def confirmPolicy (r : ReCAPTCHA) (recaptcha : reCHAPTCHARequest) (options : VerifyOption)
    (horloge : Int → Int) (result : reCHAPTCHAResponse) (resultBody : String) :
    Option Error :=
  if r.Version = V3 then
    if options.Action ≠ "" ∧ options.Action ≠ result.Action then
      some (actionError result.Action options.Action resultBody)
    else if options.Threshold ≠ 0 ∧ options.Threshold > result.Score then
      some (scoreError result.Score options.Threshold resultBody)
    else if options.Threshold = 0 ∧ DefaultThreshold > result.Score then
      some (scoreError result.Score DefaultThreshold resultBody)
    else
      confirmRest recaptcha options horloge result resultBody
  else
    confirmRest recaptcha options horloge result resultBody

/-- Outcome of the transport phase of `confirm`: the POST failed, the body
read failed, or a raw body was obtained. -/
inductive TransportOutcome where
  | postError (errText : String)
  | readError (errText : String)
  | body (raw : String)
deriving DecidableEq

/-- `confirm` (source lines 129-230): transport phase, JSON decoding, then the
policy evaluation.  `unmarshal` models `json.Unmarshal` on the raw body. -/
def confirm (r : ReCAPTCHA) (recaptcha : reCHAPTCHARequest) (options : VerifyOption)
    (horloge : Int → Int) (outcome : TransportOutcome)
    (unmarshal : String → Except String reCHAPTCHAResponse) : Option Error :=
  match outcome with
  | .postError e =>
    some { msg := "error posting to recaptcha endpoint: " ++ quoted e
           RequestError := true }
  | .readError e =>
    some { msg := "couldn" ++ squote ++ "t read response body: " ++ quoted e
           RequestError := true }
  | .body raw =>
    match unmarshal raw with
    | .error e =>
      some { msg := "invalid response body json: " ++ quoted e
             RequestError := true
             ResponseBody := raw }
    | .ok result => confirmPolicy r recaptcha options horloge result raw

/-- `Verify`: the zero-options entry point, calling `confirm` with a request
holding the secret and the token and with `VerifyOption{}`. -/
def Verify (r : ReCAPTCHA) (challengeResponse : String) (horloge : Int → Int)
    (outcome : TransportOutcome)
    (unmarshal : String → Except String reCHAPTCHAResponse) : Option Error :=
  confirm r { Secret := r.Secret, Response := challengeResponse } {} horloge outcome unmarshal

/-- `VerifyWithOptions`: builds the request with or without the remote IP and
calls `confirm` with the given options. -/
def VerifyWithOptions (r : ReCAPTCHA) (challengeResponse : String) (options : VerifyOption)
    (horloge : Int → Int) (outcome : TransportOutcome)
    (unmarshal : String → Except String reCHAPTCHAResponse) : Option Error :=
  let body : reCHAPTCHARequest :=
    if options.RemoteIP = "" then
      { Secret := r.Secret, Response := challengeResponse }
    else
      { Secret := r.Secret, Response := challengeResponse, RemoteIP := options.RemoteIP }
  confirm r body options horloge outcome unmarshal

/-! ## Helper lemmas -/

/-- When the engine is not V3, or it is V3 and both version-gated checks pass
(the action matches or is unset, and the effective threshold is at most the
score), the policy evaluation reduces to steps 2-6. -/
lemma confirmPolicy_eq_confirmRest
    (r : ReCAPTCHA) (recaptcha : reCHAPTCHARequest) (options : VerifyOption)
    (horloge : Int → Int) (result : reCHAPTCHAResponse) (resultBody : String)
    (hgate : r.Version = V3 →
      ((options.Action = "" ∨ options.Action = result.Action) ∧
        (if options.Threshold = 0 then DefaultThreshold else options.Threshold) ≤
          result.Score)) :
    confirmPolicy r recaptcha options horloge result resultBody =
      confirmRest recaptcha options horloge result resultBody := by
  by_cases hv : r.Version = V3
  · obtain ⟨hact, hscore⟩ := hgate hv
    by_cases ht : options.Threshold = 0
    · rw [if_pos ht] at hscore
      rcases hact with hact | hact <;>
        simp [confirmPolicy, hv, ht, hact, gt_iff_lt, not_lt.mpr hscore]
    · rw [if_neg ht] at hscore
      rcases hact with hact | hact <;>
        simp [confirmPolicy, hv, ht, hact, gt_iff_lt, not_lt.mpr hscore]
  · simp [confirmPolicy, hv]

/-- The policy evaluation written as one flat chain of guarded early returns,
in source order. -/
lemma confirmPolicy_flat
    (r : ReCAPTCHA) (recaptcha : reCHAPTCHARequest) (options : VerifyOption)
    (horloge : Int → Int) (result : reCHAPTCHAResponse) (resultBody : String) :
    confirmPolicy r recaptcha options horloge result resultBody =
      if r.Version = V3 ∧ options.Action ≠ "" ∧ options.Action ≠ result.Action then
        some (actionError result.Action options.Action resultBody)
      else if r.Version = V3 ∧ options.Threshold ≠ 0 ∧ options.Threshold > result.Score then
        some (scoreError result.Score options.Threshold resultBody)
      else if r.Version = V3 ∧ options.Threshold = 0 ∧ DefaultThreshold > result.Score then
        some (scoreError result.Score DefaultThreshold resultBody)
      else if result.ErrorCodes ≠ none then
        some (errorCodesError (result.ErrorCodes.getD []) resultBody)
      else if result.Success = false ∧ recaptcha.RemoteIP ≠ "" then
        some (solutionRemoteIPError resultBody)
      else if result.Success = false then
        some (solutionError resultBody)
      else if options.Hostname ≠ "" ∧ options.Hostname ≠ result.Hostname then
        some (hostnameError result.Hostname options.Hostname resultBody)
      else if options.ApkPackageName ≠ "" ∧
          options.ApkPackageName ≠ result.ApkPackageName then
        some (apkError result.ApkPackageName options.ApkPackageName resultBody)
      else if options.ResponseTime ≠ 0 ∧
          options.ResponseTime < horloge result.ChallengeTS then
        some (responseTimeError (horloge result.ChallengeTS) options.ResponseTime resultBody)
      else
        none := by
  by_cases hv : r.Version = V3 <;> simp [confirmPolicy, confirmRest, hv]

/-! ## Claim theorems -/

/-- Claim C1: under V3, once the action check does not fire, the evaluation
rejects with the score-below-minimum error exactly when the score is below
the effective threshold (the caller threshold when nonzero, else the default
0.5; boundary equality passes), and otherwise proceeds past the score check
into steps 2-6.  A threshold of exactly 0 is indistinguishable from unset. -/
theorem v3_score_threshold
    (r : ReCAPTCHA) (recaptcha : reCHAPTCHARequest) (options : VerifyOption)
    (horloge : Int → Int) (result : reCHAPTCHAResponse) (resultBody : String)
    (hv : r.Version = V3)
    (hact : options.Action = "" ∨ options.Action = result.Action) :
    confirmPolicy r recaptcha options horloge result resultBody =
      if result.Score <
          (if options.Threshold = 0 then DefaultThreshold else options.Threshold) then
        some (scoreError result.Score
          (if options.Threshold = 0 then DefaultThreshold else options.Threshold)
          resultBody)
      else
        confirmRest recaptcha options horloge result resultBody := by
  rcases hact with hact | hact <;> by_cases ht : options.Threshold = 0 <;>
    simp [confirmPolicy, hv, ht, hact, gt_iff_lt]

/-- Witness for C1: a V3 engine, empty options and score 0.23 reject with the
default threshold 0.5. -/
theorem v3_score_threshold_witness :
    confirmPolicy { Secret := "s", ReCAPTCHALink := reCAPTCHALink, Version := V3, Timeout := 0 }
      { Secret := "s", Response := "tok" } {} (fun _ => 0)
      { Success := true, Score := Rat.divInt 23 100 } "raw" =
      some (scoreError (Rat.divInt 23 100) DefaultThreshold "raw") := by
  rw [v3_score_threshold _ _ _ _ _ _ rfl (Or.inl rfl)]
  decide

/-- Counterexample to C2 as stated: a V3 engine with the zero-options entry
point still applies the default score-threshold check.  Here the parsed
result has no error codes and `success = true`, so steps 2-3 both pass, yet
`Verify` rejects with the score error instead of accepting. -/
theorem verify_zero_options_counterexample :
    Verify { Secret := "s", ReCAPTCHALink := reCAPTCHALink, Version := V3, Timeout := 0 }
      "tok" (fun _ => 0) (.body "raw")
      (fun _ => .ok { Success := true }) =
      some (scoreError 0 DefaultThreshold "raw") ∧
    ({ Success := true : reCHAPTCHAResponse }).ErrorCodes = none ∧
    ({ Success := true : reCHAPTCHAResponse }).Success = true := by
  refine ⟨?_, rfl, rfl⟩
  decide

/-- Claim C2 (amended): the zero-options entry point applies the
remote-error-codes and success-flag checks and, when the engine version is
V3, also the score check at the default threshold (the action check is
vacuous since the empty options leave `Action` empty); no hostname,
app-package or response-time check is applied. -/
theorem verify_zero_options
    (r : ReCAPTCHA) (challengeResponse : String) (horloge : Int → Int)
    (raw : String) (unmarshal : String → Except String reCHAPTCHAResponse)
    (result : reCHAPTCHAResponse) (hp : unmarshal raw = .ok result) :
    Verify r challengeResponse horloge (.body raw) unmarshal =
      if r.Version = V3 ∧ result.Score < DefaultThreshold then
        some (scoreError result.Score DefaultThreshold raw)
      else if result.ErrorCodes ≠ none then
        some (errorCodesError (result.ErrorCodes.getD []) raw)
      else if result.Success = false then
        some (solutionError raw)
      else
        none := by
  by_cases hv : r.Version = V3 <;>
    simp [Verify, confirm, hp, confirmPolicy, confirmRest, hv, gt_iff_lt]

/-- Witness for C2 (amended): a V2 engine with a successful parsed result
accepts under the zero-options entry point. -/
theorem verify_zero_options_witness :
    Verify { Secret := "s", ReCAPTCHALink := reCAPTCHALink, Version := V2, Timeout := 0 }
      "tok" (fun _ => 0) (.body "raw") (fun _ => .ok { Success := true }) = none := by
  rw [verify_zero_options _ _ _ _ _ _ rfl]
  decide

/-- Counterexample to C3 as stated: a present-but-empty remote error-code
list (a non-nil empty slice) still triggers the remote-error-codes rejection,
although the claim requires the list to be non-empty; `success` is true. -/
theorem error_codes_empty_counterexample :
    confirmPolicy { Secret := "s", ReCAPTCHALink := reCAPTCHALink, Version := V2, Timeout := 0 }
      { Secret := "s", Response := "tok" } {} (fun _ => 0)
      { Success := true, ErrorCodes := some [] } "raw" =
      some (errorCodesError [] "raw") ∧
    ({ Success := true, ErrorCodes := some [] : reCHAPTCHAResponse }).ErrorCodes = some [] ∧
    ({ Success := true, ErrorCodes := some [] : reCHAPTCHAResponse }).Success = true := by
  refine ⟨?_, rfl, rfl⟩
  decide

/-- Claim C3 (amended): once the version-gated checks do not fire, the
evaluation rejects at the remote-error-codes step exactly when
`result.ErrorCodes` is present (a non-nil slice, even an empty one),
regardless of `success`; the rejection carries the remote list exactly plus
the raw body, and when the list is absent no rejection of the evaluation
carries error codes. -/
theorem remote_error_codes_check
    (r : ReCAPTCHA) (recaptcha : reCHAPTCHARequest) (options : VerifyOption)
    (horloge : Int → Int) (result : reCHAPTCHAResponse) (resultBody : String)
    (hgate : r.Version = V3 →
      ((options.Action = "" ∨ options.Action = result.Action) ∧
        (if options.Threshold = 0 then DefaultThreshold else options.Threshold) ≤
          result.Score)) :
    (∀ codes, result.ErrorCodes = some codes →
      confirmPolicy r recaptcha options horloge result resultBody =
        some (errorCodesError codes resultBody)) ∧
    (result.ErrorCodes = none →
      ∀ e, confirmPolicy r recaptcha options horloge result resultBody = some e →
        e.ErrorCodes = none) := by
  rw [confirmPolicy_eq_confirmRest r recaptcha options horloge result resultBody hgate]
  constructor
  · intro codes hc
    simp [confirmRest, hc]
  · intro hn e he
    unfold confirmRest at he
    split_ifs at he with g1 g2 g3 g4 g5 g6
    · exact absurd hn g1
    · injection he with h'; subst h'; rfl
    · injection he with h'; subst h'; rfl
    · injection he with h'; subst h'; rfl
    · injection he with h'; subst h'; rfl
    · injection he with h'; subst h'; rfl

/-- Witness for C3 (amended): a non-empty remote code list rejects with
exactly that list, even though `success` is false as well. -/
theorem remote_error_codes_check_witness :
    confirmPolicy { Secret := "s", ReCAPTCHALink := reCAPTCHALink, Version := V2, Timeout := 0 }
      { Secret := "s", Response := "tok" } {} (fun _ => 0)
      { Success := false, ErrorCodes := some ["bad-request"] } "raw" =
      some (errorCodesError ["bad-request"] "raw") :=
  (remote_error_codes_check _ _ _ _ _ _ (fun h => absurd h (by decide))).1
    ["bad-request"] rfl

/-- Claim C4: the policy evaluation runs its checks in the source order -
V3-gated action, V3-gated score (caller threshold, then default), remote
error codes, success flag (remote-IP variant first), hostname, app package,
response time - short-circuiting at the first failing check, and accepts
(returns no error) when every applicable check passes. -/
theorem confirm_check_order
    (r : ReCAPTCHA) (recaptcha : reCHAPTCHARequest) (options : VerifyOption)
    (horloge : Int → Int) (result : reCHAPTCHAResponse) (resultBody : String) :
    confirmPolicy r recaptcha options horloge result resultBody =
      if r.Version = V3 ∧ options.Action ≠ "" ∧ options.Action ≠ result.Action then
        some (actionError result.Action options.Action resultBody)
      else if r.Version = V3 ∧ options.Threshold ≠ 0 ∧ options.Threshold > result.Score then
        some (scoreError result.Score options.Threshold resultBody)
      else if r.Version = V3 ∧ options.Threshold = 0 ∧ DefaultThreshold > result.Score then
        some (scoreError result.Score DefaultThreshold resultBody)
      else if result.ErrorCodes ≠ none then
        some (errorCodesError (result.ErrorCodes.getD []) resultBody)
      else if result.Success = false ∧ recaptcha.RemoteIP ≠ "" then
        some (solutionRemoteIPError resultBody)
      else if result.Success = false then
        some (solutionError resultBody)
      else if options.Hostname ≠ "" ∧ options.Hostname ≠ result.Hostname then
        some (hostnameError result.Hostname options.Hostname resultBody)
      else if options.ApkPackageName ≠ "" ∧
          options.ApkPackageName ≠ result.ApkPackageName then
        some (apkError result.ApkPackageName options.ApkPackageName resultBody)
      else if options.ResponseTime ≠ 0 ∧
          options.ResponseTime < horloge result.ChallengeTS then
        some (responseTimeError (horloge result.ChallengeTS) options.ResponseTime resultBody)
      else
        none :=
  confirmPolicy_flat r recaptcha options horloge result resultBody

/-- Claim C5: every rejection produced by the policy evaluation has
`RequestError = false` and carries the raw body of the parsed JSON, and its
`ErrorCodes` field is populated only when it is the remote-error-codes
rejection (in which case it equals the remote list). -/
theorem policy_error_classification
    (r : ReCAPTCHA) (recaptcha : reCHAPTCHARequest) (options : VerifyOption)
    (horloge : Int → Int) (result : reCHAPTCHAResponse) (resultBody : String)
    (e : Error)
    (h : confirmPolicy r recaptcha options horloge result resultBody = some e) :
    e.RequestError = false ∧ e.ResponseBody = resultBody ∧
      (e.ErrorCodes ≠ none →
        ∃ codes, result.ErrorCodes = some codes ∧
          e = errorCodesError codes resultBody) := by
  rw [confirmPolicy_flat] at h
  split_ifs at h with g1 g2 g3 g4 g5 g6 g7 g8 g9
  · injection h with h'; subst h'; exact ⟨rfl, rfl, fun hne => absurd rfl hne⟩
  · injection h with h'; subst h'; exact ⟨rfl, rfl, fun hne => absurd rfl hne⟩
  · injection h with h'; subst h'; exact ⟨rfl, rfl, fun hne => absurd rfl hne⟩
  · injection h with h'; subst h'
    obtain ⟨codes, hc⟩ := Option.ne_none_iff_exists'.mp g4
    refine ⟨rfl, rfl, fun _ => ⟨codes, hc, ?_⟩⟩
    rw [hc, Option.getD_some]
  · injection h with h'; subst h'; exact ⟨rfl, rfl, fun hne => absurd rfl hne⟩
  · injection h with h'; subst h'; exact ⟨rfl, rfl, fun hne => absurd rfl hne⟩
  · injection h with h'; subst h'; exact ⟨rfl, rfl, fun hne => absurd rfl hne⟩
  · injection h with h'; subst h'; exact ⟨rfl, rfl, fun hne => absurd rfl hne⟩
  · injection h with h'; subst h'; exact ⟨rfl, rfl, fun hne => absurd rfl hne⟩

/-- Witness for C5: the success-flag rejection on a V2 engine has no
transport flag, carries the raw body, and carries no error codes. -/
theorem policy_error_classification_witness :
    (solutionError "raw").RequestError = false ∧
      (solutionError "raw").ResponseBody = "raw" ∧
      ((solutionError "raw").ErrorCodes ≠ none →
        ∃ codes,
          ({ Success := false : reCHAPTCHAResponse }).ErrorCodes = some codes ∧
            solutionError "raw" = errorCodesError codes "raw") :=
  policy_error_classification
    { Secret := "s", ReCAPTCHALink := reCAPTCHALink, Version := V2, Timeout := 0 }
    { Secret := "s", Response := "t" } {} (fun _ => 0)
    { Success := false } "raw" (solutionError "raw") (by decide)

/-- Claim C6: a failed POST and a failed body read both return a
transport-class error (`RequestError = true`) embedding the underlying error
text and carrying no raw body; a JSON deserialization failure returns a
transport-class error carrying the raw body text.  Each is the sole outcome
of its case (no retry exists in the evaluation). -/
theorem transport_error_classification
    (r : ReCAPTCHA) (recaptcha : reCHAPTCHARequest) (options : VerifyOption)
    (horloge : Int → Int)
    (unmarshal : String → Except String reCHAPTCHAResponse) :
    (∀ errText, confirm r recaptcha options horloge (.postError errText) unmarshal =
      some { msg := "error posting to recaptcha endpoint: " ++ quoted errText
             RequestError := true }) ∧
    (∀ errText, confirm r recaptcha options horloge (.readError errText) unmarshal =
      some { msg := "couldn" ++ squote ++ "t read response body: " ++ quoted errText
             RequestError := true }) ∧
    (∀ raw errText, unmarshal raw = .error errText →
      confirm r recaptcha options horloge (.body raw) unmarshal =
        some { msg := "invalid response body json: " ++ quoted errText
               RequestError := true
               ResponseBody := raw }) := by
  refine ⟨fun _ => rfl, fun _ => rfl, fun raw errText hp => ?_⟩
  simp [confirm, hp]

/-- Witness for C6: a concrete parse failure yields the transport-class
error with the raw body attached. -/
theorem transport_error_classification_witness :
    confirm { Secret := "s", ReCAPTCHALink := reCAPTCHALink, Version := V2, Timeout := 0 }
      { Secret := "s", Response := "t" } {} (fun _ => 0) (.body "bogus")
      (fun _ => .error "parse failure") =
      some { msg := "invalid response body json: " ++ quoted "parse failure"
             RequestError := true
             ResponseBody := "bogus" } :=
  (transport_error_classification _ _ _ _ _).2.2 "bogus" "parse failure" rfl

/-- Claim C7: constructing an engine with a blank secret always fails with
the configuration error, and with any non-blank secret always succeeds,
preserving the secret, version, timeout and the fixed endpoint URL exactly
(the construction is a pure function: no network access occurs). -/
theorem newReCAPTCHA_construction (s : String) (version : VERSION) (timeout : Int) :
    (s = "" → NewReCAPTCHA s version timeout =
      .error "recaptcha secret cannot be blank") ∧
    (s ≠ "" → NewReCAPTCHA s version timeout =
      .ok { Secret := s, ReCAPTCHALink := reCAPTCHALink, Version := version
            Timeout := timeout }) := by
  constructor <;> intro h <;> simp [NewReCAPTCHA, h]

/-- Witness for C7: blank secret fails; a concrete non-blank secret succeeds
with all fields preserved. -/
theorem newReCAPTCHA_construction_witness :
    NewReCAPTCHA "" V2 10000000000 = .error "recaptcha secret cannot be blank" ∧
    NewReCAPTCHA "my secret" V3 10000000000 =
      .ok { Secret := "my secret", ReCAPTCHALink := reCAPTCHALink, Version := V3
            Timeout := 10000000000 } :=
  ⟨(newReCAPTCHA_construction "" V2 10000000000).1 rfl,
   (newReCAPTCHA_construction "my secret" V3 10000000000).2 (by decide)⟩

/-- Claim C8: when every earlier applicable check passes, a nonzero
`ResponseTime` bound rejects exactly when the elapsed time delivered by the
injected clock strictly exceeds the bound, with both durations rendered in
fixed-point seconds inside the message, and a zero bound skips the check. -/
theorem response_time_check
    (r : ReCAPTCHA) (recaptcha : reCHAPTCHARequest) (options : VerifyOption)
    (horloge : Int → Int) (result : reCHAPTCHAResponse) (resultBody : String)
    (hgate : r.Version = V3 →
      ((options.Action = "" ∨ options.Action = result.Action) ∧
        (if options.Threshold = 0 then DefaultThreshold else options.Threshold) ≤
          result.Score))
    (hcodes : result.ErrorCodes = none) (hsuccess : result.Success = true)
    (hhost : options.Hostname = "" ∨ options.Hostname = result.Hostname)
    (hapk : options.ApkPackageName = "" ∨
      options.ApkPackageName = result.ApkPackageName) :
    confirmPolicy r recaptcha options horloge result resultBody =
      if options.ResponseTime ≠ 0 ∧ options.ResponseTime < horloge result.ChallengeTS then
        some (responseTimeError (horloge result.ChallengeTS) options.ResponseTime
          resultBody)
      else
        none := by
  rw [confirmPolicy_eq_confirmRest r recaptcha options horloge result resultBody hgate]
  rcases hhost with hh | hh <;> rcases hapk with ha | ha <;>
    simp [confirmRest, hcodes, hsuccess, hh, ha]

/-- Witness for C8: elapsed 8s against a 5s bound rejects and the message
embeds both durations as fixed-point seconds; elapsed 1s against the same
bound accepts. -/
theorem response_time_check_witness :
    confirmPolicy { Secret := "s", ReCAPTCHALink := reCAPTCHALink, Version := V2, Timeout := 0 }
      { Secret := "s", Response := "t" } { ResponseTime := 5000000000 }
      (fun _ => 8000000000) { Success := true } "raw" =
      some (responseTimeError 8000000000 5000000000 "raw") ∧
    (responseTimeError 8000000000 5000000000 "raw").msg =
      "time spent in resolving challenge " ++ squote ++ "8.000000" ++ "s" ++ squote ++
        ", while expecting maximum " ++ squote ++ "5.000000" ++ "s" ++ squote ∧
    confirmPolicy { Secret := "s", ReCAPTCHALink := reCAPTCHALink, Version := V2, Timeout := 0 }
      { Secret := "s", Response := "t" } { ResponseTime := 5000000000 }
      (fun _ => 1000000000) { Success := true } "raw" = none := by
  refine ⟨?_, by decide, ?_⟩
  · rw [response_time_check _ _ _ _ _ _ (fun h => absurd h (by decide)) rfl rfl
      (Or.inl rfl) (Or.inl rfl)]
    decide
  · rw [response_time_check _ _ _ _ _ _ (fun h => absurd h (by decide)) rfl rfl
      (Or.inl rfl) (Or.inl rfl)]
    decide

/-- Claim C9: a parsed result with `success = false` that reaches the
success-flag step always rejects with a policy-class error that carries the
raw body and no error codes; the message depends only on whether a remote IP
was part of the request. -/
theorem success_flag_check
    (r : ReCAPTCHA) (recaptcha : reCHAPTCHARequest) (options : VerifyOption)
    (horloge : Int → Int) (result : reCHAPTCHAResponse) (resultBody : String)
    (hgate : r.Version = V3 →
      ((options.Action = "" ∨ options.Action = result.Action) ∧
        (if options.Threshold = 0 then DefaultThreshold else options.Threshold) ≤
          result.Score))
    (hcodes : result.ErrorCodes = none) (hfail : result.Success = false) :
    confirmPolicy r recaptcha options horloge result resultBody =
      some { msg := if recaptcha.RemoteIP ≠ "" then
                      "invalid challenge solution or remote IP"
                    else
                      "invalid challenge solution"
             ErrorCodes := none
             RequestError := false
             ResponseBody := resultBody } := by
  rw [confirmPolicy_eq_confirmRest r recaptcha options horloge result resultBody hgate]
  by_cases hr : recaptcha.RemoteIP = "" <;>
    simp [confirmRest, hcodes, hfail, hr, solutionError, solutionRemoteIPError]

/-- Witness for C9: a failed solution with a remote IP in the request rejects
with the remote-IP variant of the message. -/
theorem success_flag_check_witness :
    confirmPolicy { Secret := "s", ReCAPTCHALink := reCAPTCHALink, Version := V2, Timeout := 0 }
      { Secret := "s", Response := "t", RemoteIP := "1.2.3.4" } {} (fun _ => 0)
      { Success := false } "raw" = some (solutionRemoteIPError "raw") := by
  rw [success_flag_check _ _ _ _ _ _ (fun h => absurd h (by decide)) rfl rfl]
  decide

/-- Claim C10: for any engine version other than V3 - including values
outside the declared enumeration, since `VERSION` is an open integer type -
the version-gated checks are skipped entirely: the evaluation equals steps
2-6 and coincides with the evaluation of the same engine at version V2. -/
theorem non_v3_version_gate
    (r : ReCAPTCHA) (recaptcha : reCHAPTCHARequest) (options : VerifyOption)
    (horloge : Int → Int) (result : reCHAPTCHAResponse) (resultBody : String)
    (hv : r.Version ≠ V3) :
    confirmPolicy r recaptcha options horloge result resultBody =
      confirmRest recaptcha options horloge result resultBody ∧
    confirmPolicy r recaptcha options horloge result resultBody =
      confirmPolicy { r with Version := V2 } recaptcha options horloge result
        resultBody := by
  have hno : (V2 : VERSION) ≠ V3 := by decide
  have h1 : confirmPolicy r recaptcha options horloge result resultBody =
      confirmRest recaptcha options horloge result resultBody := by
    simp [confirmPolicy, hv]
  have h2 : confirmPolicy { r with Version := V2 } recaptcha options horloge result
      resultBody = confirmRest recaptcha options horloge result resultBody := by
    simp [confirmPolicy, hno]
  exact ⟨h1, h1.trans h2.symm⟩

/-- Witness for C10: an engine with the out-of-enumeration version 7 behaves
exactly like a V2 engine on a concrete evaluation. -/
theorem non_v3_version_gate_witness :
    confirmPolicy { Secret := "s", ReCAPTCHALink := reCAPTCHALink, Version := 7, Timeout := 0 }
      { Secret := "s", Response := "t" } {} (fun _ => 0) { Success := true } "raw" =
      confirmRest { Secret := "s", Response := "t" } {} (fun _ => 0)
        { Success := true } "raw" ∧
    confirmPolicy { Secret := "s", ReCAPTCHALink := reCAPTCHALink, Version := 7, Timeout := 0 }
      { Secret := "s", Response := "t" } {} (fun _ => 0) { Success := true } "raw" =
      confirmPolicy { Secret := "s", ReCAPTCHALink := reCAPTCHALink, Version := V2, Timeout := 0 }
        { Secret := "s", Response := "t" } {} (fun _ => 0) { Success := true } "raw" :=
  non_v3_version_gate
    { Secret := "s", ReCAPTCHALink := reCAPTCHALink, Version := 7, Timeout := 0 }
    { Secret := "s", Response := "t" } {} (fun _ => 0) { Success := true } "raw"
    (by decide)

end Recaptcha
